import Mathlib

/-!
Verification of the `.scan` binary codec of the scan-controller repository
(`exportScan.py`, `exportScanSD.py`, `importScan.py`).

The wire format consists solely of little-endian IEEE-754 binary64 values.
No floating-point arithmetic is ever performed on the stored values: the
codec only copies, permutes, concatenates and zero-pads them.  We therefore
model each 8-byte wire value as a rational number (`ℚ`), which represents
the stored doubles exactly for every integer- and decimal-valued input.
NumPy arrays are modelled as a shape (`List ℕ`) together with the flat list
of elements in C order (the logical element order of NumPy, which `reshape`
reads and fills regardless of memory layout); Fortran-order flattening and
Fortran-order reshapes are explicit index transformations, exactly as the
NumPy documentation specifies them.
-/

namespace ScanCodec

/-- Product of a list of dimension sizes. -/
def listProd (dims : List ℕ) : ℕ := dims.foldr (· * ·) 1

/-- Multi-index of the `m`-th element in Fortran (column-major, first axis
fastest) order for the given dimension list. -/
def idxF : List ℕ → ℕ → List ℕ
  | [], _ => []
  | d :: ds, m => (m % d) :: idxF ds (m / d)

/-- Flat Fortran-order position of a multi-index. -/
def posF : List ℕ → List ℕ → ℕ
  | _, [] => 0
  | [], _ => 0
  | d :: ds, i :: is => i + d * posF ds is

/-- Multi-index of the `k`-th element in C (row-major, last axis fastest)
order for the given dimension list. -/
def idxC (dims : List ℕ) (k : ℕ) : List ℕ :=
  (idxF dims.reverse k).reverse

/-- Flat C-order position of a multi-index. -/
def posC (dims : List ℕ) (idx : List ℕ) : ℕ :=
  posF dims.reverse idx.reverse

/-- C-flat position of the `m`-th element in Fortran order
(`numpy.ravel(order=F)` reads elements in this sequence). -/
def fToC (dims : List ℕ) (m : ℕ) : ℕ := posC dims (idxF dims m)

/-- Fortran-order sequence number of the element at C-flat position `k`. -/
def cToF (dims : List ℕ) (k : ℕ) : ℕ := posF dims (idxC dims k)

/-- Model of `ravel(order=F)`: the elements of a C-flat array listed in Fortran
order. -/
def flattenF (dims : List ℕ) (flat : List ℚ) : List ℚ :=
  (List.range (listProd dims)).map (fun m => flat.getD (fToC dims m) 0)

/-- Build the C-flat list of an array of shape `dims` whose Fortran-order
element sequence is `seq` (`reshape(dims, order=F)` of that sequence). -/
def unflattenFQ (dims : List ℕ) (seq : List ℚ) : List ℚ :=
  (List.range (listProd dims)).map (fun k => seq.getD (cToF dims k) 0)

/-- Complex scalar: (real part, imaginary part), both exact doubles. -/
abbrev CVal := ℚ × ℚ

/-- Fortran-order flatten for complex arrays. -/
def flattenFC (dims : List ℕ) (flat : List CVal) : List CVal :=
  (List.range (listProd dims)).map (fun m => flat.getD (fToC dims m) (0, 0))

/-- Fortran-order unflatten for complex arrays. -/
def unflattenFC (dims : List ℕ) (seq : List CVal) : List CVal :=
  (List.range (listProd dims)).map (fun k => seq.getD (cToF dims k) (0, 0))

/-- Rebuild a list by reading position `p k` for every position `k < n`.
All the array transforms below (transposes and stripe flips) are
precompositions with such an index map. -/
def applyIdxMapN {α : Type} (n : ℕ) (p : ℕ → ℕ) (d : α) (xs : List α) : List α :=
  (List.range n).map (fun k => xs.getD (p k) d)

/-- Model of `numpy.transpose(arr, axes=perm)` on a C-flat array: returns the new
shape and the new C-flat element list. -/
def transposeArr {α : Type} (shape perm : List ℕ) (d : α) (flat : List α) :
    List ℕ × List α :=
  let newShape := perm.map (fun a => shape.getD a 0)
  (newShape,
    (List.range (listProd newShape)).map (fun k =>
      let j := idxC newShape k
      let oldIdx := (List.range shape.length).map (fun ax => j.getD (perm.indexOf ax) 0)
      flat.getD (posC shape oldIdx) d))

/-!
## The raster (boustrophedon) flip, `exportScan.py` lines 244–272.

The source reshapes the permuted array `(Nf, Nc, S0, …, S(n-1))` with
the NumPy default C-order `reshape` to `(Nf, Nc, B, Si, A)` where
`B = S0⋯S(i-1)` and `A = S(i+1)⋯S(n-1)`, then reverses the `Si` axis of
every odd-indexed column of the trailing `A` axis
(`Data[:, :, :, :, 1::2] = flip(Data[:, :, :, :, 1::2], axis=3)`).
On the C-flat index `k` this is exactly: with `a = k % A`,
`s = (k / A) % Si` and `rest = k / (A*Si)` (the fused `(Nf,Nc,B)` block),
replace `s` by `Si-1-s` whenever `a` is odd. -/
def passIdxMap (si a : ℕ) (k : ℕ) : ℕ :=
  let r := k % a
  let s := (k / a) % si
  let rest := k / (a * si)
  let s' := if r % 2 = 1 then si - 1 - s else s
  rest * (si * a) + s' * a + r

/-- One pass of the raster flip for spatial axis `i` of sizes `dims`,
acting on the C-flat list (leading frequency/channel axes are fused into
the `rest` block of `passIdxMap`, exactly as the C-order reshape fuses
them). -/
def rasterFlipPass (dims : List ℕ) (i : ℕ) (xs : List CVal) : List CVal :=
  applyIdxMapN xs.length (passIdxMap (dims.getD i 1) (listProd (dims.drop (i + 1)))) (0, 0) xs

/-- The full raster flip: one pass per spatial axis `0 … n-2`, in
increasing order, each acting on the already-flipped result
(`for i in range(num_dims - 1)` in the source). -/
def rasterFlip (dims : List ℕ) (xs : List CVal) : List CVal :=
  (List.range (dims.length - 1)).foldl (fun acc i => rasterFlipPass dims i acc) xs

/-!
## `exportScan.py` (`export_scan`)

Input structures.  Strings are lists of character codes (the format widens
each character to a double).  The `dataIsComplex` flag models the dtype
test `np.iscomplexobj(data)`; real arrays carry a zero imaginary part.
-/

structure ExportHeaderIn where
  header : List ℕ := []
  description : List ℕ := []
  deviceName : List ℕ := []
  channelNames : List (List ℕ) := []

structure ExportInput where
  axisCoordinates : List (List ℚ)
  fVector : List ℚ
  dataShape : List ℕ
  dataFlat : List CVal
  dataIsComplex : Bool
  headerIn : ExportHeaderIn
  isUniform : Bool

/-- Source `num_dims = len(axis_coordinates)` (line 62). -/
def numDims (x : ExportInput) : ℕ := x.axisCoordinates.length

/-- Source `dim_size_np`, the coordinate vector lengths (line 63). -/
def dimSizeNp (x : ExportInput) : List ℕ := x.axisCoordinates.map List.length

/-- Shape/size validation of `export_scan`, lines 68–118, in source order.
(The `isinstance`/`ndim` type checks of lines 49–59 are enforced by the
types of `ExportInput` and are not representable as runtime failures.) -/
def exportScanCheck (x : ExportInput) : Except String Unit :=
  let nd := numDims x
  let ds := dimSizeNp x
  let sh := x.dataShape
  if x.isUniform then
    if nd > 0 ∧ ds ≠ sh.take nd then .error "inconsistent dimension sizes"
    else if sh.length < nd + 1 ∨ nd + 2 < sh.length then .error "bad ndim"
    else if x.fVector.length ≠ sh.getD nd 0 then .error "inconsistent frequency dimension"
    else .ok ()
  else
    if nd > 0 ∧ sh = [] then .error "index error reading NumPoints"
    else if nd > 0 ∧ ∃ l ∈ ds, l ≠ sh.getD 0 0 then .error "inconsistent points dimension"
    else if nd = 0 ∧ sh.length = 0 then .error "non-uniform scalar data"
    else if sh.length < 2 ∨ 3 < sh.length then .error "bad ndim"
    else if x.fVector.length ≠ sh.getD 1 0 then .error "inconsistent frequency dimension"
    else .ok ()

/-- The caller-supplied arrays/coordinates are consistent with the declared
dimensions: the conjunction of the conditions that `export_scan` validates
before opening the output file. -/
def exportScanConsistent (x : ExportInput) : Prop :=
  let nd := numDims x
  let ds := dimSizeNp x
  let sh := x.dataShape
  if x.isUniform then
    (nd = 0 ∨ ds = sh.take nd) ∧ (nd + 1 ≤ sh.length ∧ sh.length ≤ nd + 2) ∧
      x.fVector.length = sh.getD nd 0
  else
    (nd > 0 → sh ≠ [] ∧ ∀ l ∈ ds, l = sh.getD 0 0) ∧ (nd = 0 → sh.length ≠ 0) ∧
      (2 ≤ sh.length ∧ sh.length ≤ 3) ∧ x.fVector.length = sh.getD 1 0

/-- Channel count (lines 91 and 132). -/
def exportNumChannels (x : ExportInput) : ℕ :=
  let nd := numDims x
  if x.isUniform then
    if x.dataShape.length = nd + 2 then x.dataShape.getD (nd + 1) 0 else 1
  else
    if x.dataShape.length = 3 then x.dataShape.getD 2 0 else 1

/-- Source `num_dims_for_file` (lines 66 and 125): a non-uniform scan with zero
declared spatial axes is stored as one synthetic axis. -/
def numDimsForFile (x : ExportInput) : ℕ :=
  if ¬x.isUniform ∧ numDims x = 0 ∧ x.dataShape.length > 0 then 1 else numDims x

/-- The `dimSize` values written to the file (lines 92 and 120–130). -/
def fileDimSize (x : ExportInput) : List ℕ :=
  if x.isUniform then dimSizeNp x
  else if numDims x > 0 then x.dataShape.getD 0 0 :: List.replicate (numDims x - 1) 1
  else if x.dataShape.length > 0 then [x.dataShape.getD 0 0]
  else []

/-- Default channel name `Channel i` (line 155), character codes. -/
def defaultChannelName (i : ℕ) : List ℕ :=
  [67, 104, 97, 110, 110, 101, 108, 32] ++ (Nat.toDigits 10 i).map Char.toNat

/-- Channel-name fixup of lines 149–159: pad with default names or drop
extras so that the list length equals the channel count. -/
def fixChannelNames (names : List (List ℕ)) (nc : ℕ) : List (List ℕ) :=
  if names.length < nc then
    names ++ (List.range (nc - names.length)).map (fun j => defaultChannelName (names.length + 1 + j))
  else names.take nc

/-- Model of `_write_string_as_doubles` (lines 9–13): length then one double per
character code. -/
def encodeString (s : List ℕ) : List ℚ :=
  ((s.length : ℕ) : ℚ) :: s.map (fun c : ℕ => (c : ℚ))

/-- The `dim_order` block written by `export_scan` (line 137):
`np.arange(num_dims_for_file)`. -/
def exportScanDimOrderBlock (n : ℕ) : List ℚ :=
  (List.range n).map (fun i : ℕ => (i : ℚ))

/-- Relative-coordinates block (lines 213–221, first loop). -/
def exportScanRelBlock (x : ExportInput) : List ℚ :=
  if numDims x > 0 then x.axisCoordinates.flatten
  else if ¬x.isUniform ∧ numDimsForFile x = 1 ∧ numDims x = 0 then
    List.replicate (x.dataShape.getD 0 0) 0
  else []

/-- Absolute-coordinates block (lines 216–222, second loop: the same
vectors are written again). -/
def exportScanAbsBlock (x : ExportInput) : List ℚ :=
  if numDims x > 0 then x.axisCoordinates.flatten
  else if ¬x.isUniform ∧ numDimsForFile x = 1 ∧ numDims x = 0 then
    List.replicate (x.dataShape.getD 0 0) 0
  else []

/-- Complex packing of the encoder (lines 283–289): all real parts of the
Fortran-flattened array, then all imaginary parts. -/
def packComplexQ (seq : List CVal) : List ℚ :=
  seq.map Prod.fst ++ seq.map Prod.snd

/-- Measurement-data payload of `export_scan` (lines 227–294): make the
channel axis explicit, permute to `(Nf, Nc, spatial…)`, raster-flip
(uniform with more than one spatial axis), flatten in Fortran order, pack
complex data as `[real_block, imag_block]`. -/
def exportScanPayload (x : ExportInput) : List ℚ :=
  let nd := numDims x
  let nf := x.fVector.length
  let seq :=
    if x.isUniform then
      let shape1 :=
        if x.dataShape.length = nd + 1 then x.dataShape.take nd ++ [nf, 1] else x.dataShape
      let perm := [nd, nd + 1] ++ List.range nd
      let tp := transposeArr shape1 perm ((0 : ℚ), (0 : ℚ)) x.dataFlat
      let flatF := if nd > 1 then rasterFlip (dimSizeNp x) tp.2 else tp.2
      flattenFC tp.1 flatF
    else
      let shape1 := if x.dataShape.length = 2 then x.dataShape ++ [1] else x.dataShape
      let tp := transposeArr shape1 [1, 2, 0] ((0 : ℚ), (0 : ℚ)) x.dataFlat
      flattenFC tp.1 tp.2
  if x.dataIsComplex then packComplexQ seq else seq.map Prod.fst

/-- The byte stream (as a list of doubles) written by `export_scan`
(lines 186–294), in source order. -/
def exportScanWire (x : ExportInput) : List ℚ :=
  let ndf := numDimsForFile x
  let nc := exportNumChannels x
  [63474328, 1]
    ++ encodeString x.headerIn.header
    ++ encodeString x.headerIn.description
    ++ encodeString x.headerIn.deviceName
    ++ [if x.isUniform then 1 else 0, (ndf : ℚ)]
    ++ (if ndf > 0 then exportScanDimOrderBlock ndf ++ (fileDimSize x).map (fun n : ℕ => (n : ℚ)) else [])
    ++ [(nc : ℚ)]
    ++ ((fixChannelNames x.headerIn.channelNames nc).map encodeString).flatten
    ++ [(x.fVector.length : ℚ), if x.dataIsComplex then 1 else 0]
    ++ exportScanRelBlock x ++ exportScanAbsBlock x
    ++ x.fVector
    ++ exportScanPayload x

/-- Model of `export_scan`: validation first (lines 48–159), then the write.  In the
source the output file is only opened (line 186) after every validation has
passed, so a validation failure produces an error and no file. -/
def exportScanModel (x : ExportInput) : Except String (List ℚ) :=
  match exportScanCheck x with
  | .error e => .error e
  | .ok _ => .ok (exportScanWire x)

/-!
## `exportScanSD.py` (`export_scan`)
-/

structure SDInput where
  coords : List (List ℚ)
  dataShape : List ℕ
  dataFlat : List CVal
  dataIsComplex : Bool
  freqs : List ℚ
  dimSize : List ℕ
  hdrHeader : List ℕ := []
  hdrDescription : List ℕ := []
  hdrDeviceName : List ℕ := []
  hdrChannelNames : List (List ℕ) := []
  hdrIsUniform : Bool := false

/-- Source `num_spatial_points` (line 83). -/
def sdNumSpatial (y : SDInput) : ℕ :=
  if y.hdrIsUniform then listProd y.dimSize else y.dimSize.getD 0 0

/-- Validation of `exportScanSD.export_scan` (lines 75–107), in source
order, all raised before the output file is opened (line 147). -/
def sdCheck (y : SDInput) : Except String Unit :=
  if y.coords.length ≠ 2 then .error "coords must be a list of two sets"
  else if y.dataShape.length < 2 then .error "data must have at least 2 dimensions"
  else if y.hdrChannelNames.length ≠ y.dataShape.getLastD 0 then .error "channel count mismatch"
  else if y.dataShape ≠ [sdNumSpatial y, y.freqs.length, y.hdrChannelNames.length] then
    .error "data shape mismatch"
  else .ok ()

/-- Caller-supplied arrays/coordinates consistent with the declared
dimensions, for the second encode path. -/
def sdConsistent (y : SDInput) : Prop :=
  y.coords.length = 2 ∧ 2 ≤ y.dataShape.length ∧
    y.hdrChannelNames.length = y.dataShape.getLastD 0 ∧
    y.dataShape = [sdNumSpatial y, y.freqs.length, y.hdrChannelNames.length]

/-- Relative and absolute coordinate blocks of the SD encoder
(lines 180–185): the relative block writes `coords` in order, the
absolute block writes `coords_to_write = [coords[1], coords[0]]`
(line 81). -/
def sdCoordBlocks (coords : List (List ℚ)) : List ℚ × List ℚ :=
  (coords.flatten, coords.getD 1 [] ++ coords.getD 0 [])

/-- The `dim_order` block of the SD encoder: hard-coded `(1, 0)` (line 164). -/
def sdDimOrderBlock : List ℚ := [1, 0]

/-- Measurement payload of the SD encoder (lines 111–132): transpose
`(Npoints, Nf, Nc)` to `(Nf, Nc, Npoints)`, Fortran-flatten, pack complex
as `[real_block, imag_block]`. -/
def sdPayload (y : SDInput) : List ℚ :=
  let tp := transposeArr y.dataShape [1, 2, 0] ((0 : ℚ), (0 : ℚ)) y.dataFlat
  let seq := flattenFC tp.1 tp.2
  if y.dataIsComplex then packComplexQ seq else seq.map Prod.fst

/-- The byte stream written by `exportScanSD.export_scan`
(lines 147–191). -/
def sdWire (y : SDInput) : List ℚ :=
  [63474328, 1]
    ++ encodeString y.hdrHeader
    ++ encodeString y.hdrDescription
    ++ encodeString y.hdrDeviceName
    ++ [if y.hdrIsUniform then 1 else 0, 2]
    ++ sdDimOrderBlock
    ++ y.dimSize.map (fun n : ℕ => (n : ℚ))
    ++ [(y.hdrChannelNames.length : ℚ)]
    ++ (y.hdrChannelNames.map encodeString).flatten
    ++ [(y.freqs.length : ℚ), if y.dataIsComplex then 1 else 0]
    ++ (sdCoordBlocks y.coords).1 ++ (sdCoordBlocks y.coords).2
    ++ y.freqs
    ++ sdPayload y

/-- Model of `exportScanSD.export_scan`: validation first, then the write.  On a
validation failure the output file is never opened. -/
def sdModel (y : SDInput) : Except String (List ℚ) :=
  match sdCheck y with
  | .error e => .error e
  | .ok _ => .ok (sdWire y)

/-!
## `importScan.py` (`import_scan`)

The stream is a list of doubles.  Reads done through `struct.unpack`
raise on a short stream (modelled by `readVal`/`readN` returning an
error); reads done through `np.frombuffer(f.read(…))` silently return
fewer values (modelled by `takeN`).
-/

/-- Read one double through `struct.unpack`; a short stream is a
corrupted-header error. -/
def readVal : List ℚ → Except String (ℚ × List ℚ)
  | [] => .error "header corrupted or incomplete"
  | v :: rest => .ok (v, rest)

/-- Read `n` doubles through `struct.unpack`. -/
def readN (n : ℕ) (s : List ℚ) : Except String (List ℚ × List ℚ) :=
  if n ≤ s.length then .ok (s.take n, s.drop n)
  else .error "header corrupted or incomplete"

/-- Read up to `n` doubles through `np.frombuffer(f.read(8*n))`: a short
stream just yields fewer values. -/
def takeN (n : ℕ) (s : List ℚ) : List ℚ × List ℚ := (s.take n, s.drop n)

/-- Python `int(value)` on a stored double (the format stores exact nonnegative
integers in count fields). -/
def qToNat (q : ℚ) : ℕ := q.floor.toNat

/-- Exact `1 + q` on rationals, written on the raw representation:
`num/den + 1 = (num + den)/den`.  (Used for the 1-based shift the decoder
applies to the stored `dim_order`, line 109.) -/
def qAddOne (q : ℚ) : ℚ := mkRat (q.num + q.den) q.den

/-- Model of `read_string` (lines 92–96): length, then one character per double. -/
def readString (s : List ℚ) : Except String (List ℕ × List ℚ) := do
  let (lq, s1) ← readVal s
  let (chars, s2) ← readN (qToNat lq) s1
  pure (chars.map qToNat, s2)

/-- Read `n` length-prefixed strings (channel names, line 115). -/
def readStrings : ℕ → List ℚ → Except String (List (List ℕ) × List ℚ)
  | 0, s => .ok ([], s)
  | n + 1, s => do
    let (x, s1) ← readString s
    let (xs, s2) ← readStrings n s1
    pure (x :: xs, s2)

/-- Read the coordinate vector of each axis in turn (lines 123–134). -/
def takeCoordVecs : List ℕ → List ℚ → List (List ℚ) × List ℚ
  | [], s => ([], s)
  | n :: rest, s =>
    let t := takeN n s
    let r := takeCoordVecs rest t.2
    (t.1 :: r.1, r.2)

/-- The measurement-data block read of lines 156–171: read up to the
declared count; if the stream is short, pad the tail with zeros and flag
the non-fatal warning.  Returns (data block, short-data warning flag,
remaining stream). -/
def readMeasurementBlock (toRead : ℕ) (s : List ℚ) : List ℚ × Bool × List ℚ :=
  let t := takeN toRead s
  if t.1.length < toRead then
    (t.1 ++ List.replicate (toRead - t.1.length) 0, true, t.2)
  else (t.1, false, t.2)

/-- The complex unpacking of the decoder (lines 191–205): reshape the raw block
to `(num_f*num_channels, 2, num_spatial)` in Fortran order and combine
column 0 with column 1.  The result is the Fortran-order element sequence
of the decoded `(num_f, num_channels, num_spatial)` complex array: element
`k` (with `m = k % M`, `s = k / M`) is
`raw[m + 2*M*s] + i * raw[m + M + 2*M*s]`. -/
def unpackFSeq (m s : ℕ) (raw : List ℚ) : List CVal :=
  (List.range (m * s)).map (fun k =>
    (raw.getD (k % m + 2 * m * (k / m)) 0, raw.getD (k % m + m + 2 * m * (k / m)) 0))

/-- Source `last_significant_dim` (lines 227–231): 1-based index of the last axis
of size greater than one, or 0 when there is none. -/
def lastSignificantDim (dimSize : List ℕ) : ℕ :=
  (List.range dimSize.length).foldl (fun acc i => if dimSize.getD i 0 > 1 then i + 1 else acc) 0

/-- Output-dimension reconciliation (lines 233–270): decide the number of
output axes, fail when the caller requests fewer axes than the last
significant stored axis, and drop surplus trailing singleton axes.
Returns `(final_num_output_dims, actual_num_dims, dim_order, dim_size)`
(the order list is 1-based, as the source keeps it). -/
def reconcileDims (nd : ℕ) (dimOrder1 dimSize : List ℕ) (requested : Option ℕ) :
    Except String (ℕ × ℕ × List ℕ × List ℕ) :=
  let lsd := lastSignificantDim dimSize
  let finalOut :=
    match requested with
    | none => if nd > 0 then max 1 lsd else 0
    | some r => r
  if finalOut < lsd then .error "requested fewer output dimensions than significant"
  else if finalOut < nd then
    if (dimSize.drop finalOut).all (fun v => v = 1) then
      .ok (finalOut, finalOut, dimOrder1.filter (fun o => o ≤ finalOut), dimSize.take finalOut)
    else .ok (finalOut, nd, dimOrder1, dimSize)
  else .ok (finalOut, nd, dimOrder1, dimSize)

/-- One iteration of the uniform raster-unflip loop of the decoder
(lines 296–367).  `iLeak` is the stale loop variable `i` that the body
reads as `matlab_ii` (line 297): the last value assigned by the coordinate
loops, not the `ii` of this loop. -/
def uniformFlipStep (nf nc finalOut actual : ℕ) (dimOrder dimSize : List ℕ)
    (st : List ℕ × List CVal) : Except String (List ℕ × List CVal) :=
  let iLeak := if actual < finalOut then finalOut - 1 else actual - 1
  if ¬(dimOrder.all (fun o => o - 1 < dimSize.length)) then
    .error "index error in dim order"
  else if 1 ≤ iLeak ∧ dimOrder.length ≤ iLeak - 1 then
    .error "index error reading size dim4"
  else if dimSize.length < 2 then .error "index error reading Nx Ny"
  else
    let nx := dimSize.getD 0 0
    let ny := dimSize.getD 1 0
    let target := [nf, nc, 1, ny, nx]
    if st.2.length ≠ listProd target then .error "reshape for flip failed"
    else
      let temp := unflattenFC target (flattenFC st.1 st.2)
      let flipped := applyIdxMapN temp.length (passIdxMap ny nx) ((0 : ℚ), (0 : ℚ)) temp
      let shape2 := [nf, nc] ++ dimOrder.map (fun o => dimSize.getD (o - 1) 0)
      if flipped.length ≠ listProd shape2 then .error "reshape to grid failed"
      else
        let sq := if shape2.getD 1 0 = 1 then (shape2.eraseIdx 1, flipped) else (shape2, flipped)
        if sq.1.length ≠ 3 then .error "axes do not match array"
        else .ok (transposeArr sq.1 [2, 1, 0] ((0 : ℚ), (0 : ℚ)) sq.2)

/-- The uniform branch of the final data reorganization of the decoder: the
flip/squeeze/transpose body runs once per `ii in range(actual_num_dims-1)`
on the running result. -/
def uniformTransform (nf nc finalOut actual : ℕ) (dimOrder dimSize : List ℕ)
    (numSpatial : ℕ) (dataC : List CVal) : Except String (List ℕ × List CVal) :=
  (List.range (actual - 1)).foldlM
    (fun st _ => uniformFlipStep nf nc finalOut actual dimOrder dimSize st)
    ([nf, nc, numSpatial], dataC)

structure ImportResult where
  outputCoords : List (List ℚ)
  freqVector : List ℚ
  dataShape : List ℕ
  dataFlat : List CVal
  hdrHeader : List ℕ
  hdrDescription : List ℕ
  hdrDeviceName : List ℕ
  hdrChannelNames : List (List ℕ)
  hdrIsUniform : Bool
  warnedShortData : Bool
  warnedExtraData : Bool
deriving DecidableEq, Repr

/-- Model of `import_scan` after a successful file-dialog selection: parse the
header, coordinates, frequencies and measurement block, reconcile the
output dimensionality and reorganize the data (lines 80–377). -/
def importScanFile (fileData : List ℚ) (requested : Option ℕ) :
    Except String ImportResult := do
  let (code, s0) ← readVal fileData
  if code ≠ 63474328 then throw "scan file type not recognized"
  let (ver, s1) ← readVal s0
  if ver ≠ 1 then throw "scan file version is not supported"
  let (hdr, s2) ← readString s1
  let (desc, s3) ← readString s2
  let (dev, s4) ← readString s3
  let (uq, s5) ← readVal s4
  let isUniform := decide (uq ≠ 0)
  let (ndq, s6) ← readVal s5
  let nd := qToNat ndq
  let (dord, s7) ← readN nd s6
  let dimOrder1 : List ℕ := dord.map (fun q => qToNat (qAddOne q))
  let (dsz, s8) ← readN nd s7
  let dimSize0 : List ℕ := dsz.map qToNat
  let (ncq, s9) ← readVal s8
  let nc := qToNat ncq
  let (chNames, s10) ← readStrings nc s9
  let (nfq, s11) ← readVal s10
  let nf := qToNat nfq
  let (cxq, s12) ← readVal s11
  let isComplex := decide (cxq ≠ 0)
  let numPoints := dimSize0.getD 0 0
  let tc :=
    if isUniform then takeCoordVecs dimSize0 s12
    else takeCoordVecs (List.replicate nd numPoints) s12
  let axisCoords := tc.1
  let s13 :=
    if isUniform then tc.2.drop dimSize0.sum
    else tc.2.drop (numPoints * nd)
  let fr := takeN nf s13
  let freqVec := fr.1
  let numSpatial := if isUniform then listProd dimSize0 else numPoints
  let toRead := nf * nc * numSpatial * (if isComplex then 2 else 1)
  let mb := readMeasurementBlock toRead fr.2
  let dataRaw := mb.1
  let warnedShort := mb.2.1
  let warnedExtra := !mb.2.2.isEmpty
  let dataC : List CVal :=
    if isComplex then unflattenFC [nf, nc, numSpatial] (unpackFSeq (nf * nc) numSpatial dataRaw)
    else unflattenFC [nf, nc, numSpatial] (dataRaw.map (fun q : ℚ => (q, 0)))
  let (finalOut, actual, dimOrder, dimSize) ← reconcileDims nd dimOrder1 dimSize0 requested
  if finalOut > actual ∧ ¬isUniform ∧ dimSize = [] then
    throw "index error reading number of points"
  let baseCoords := axisCoords.take actual
  let nonUniformPts :=
    if actual > 0 then (axisCoords.getD 0 []).length
    else if dimSize.length > 0 then dimSize.getD 0 0 else 1
  let extras := (List.range (finalOut - actual)).map
    (fun _ => if isUniform then [(0 : ℚ)] else List.replicate nonUniformPts (0 : ℚ))
  let res ←
    if isUniform then
      uniformTransform nf nc finalOut actual dimOrder dimSize numSpatial dataC
    else
      pure (transposeArr [nf, nc, numSpatial] [2, 0, 1] ((0 : ℚ), (0 : ℚ)) dataC)
  pure
    { outputCoords := baseCoords ++ extras
      freqVector := freqVec
      dataShape := res.1
      dataFlat := res.2
      hdrHeader := hdr
      hdrDescription := desc
      hdrDeviceName := dev
      hdrChannelNames := chNames
      hdrIsUniform := isUniform
      warnedShortData := warnedShort
      warnedExtraData := warnedExtra }

/-- Top of `import_scan` (lines 70–76): the file-selection dialog result
comes first; an empty filename (user cancel) returns `None` before any
file is opened or read. -/
def importScanTop (dialogResult : String) (requested : Option ℕ)
    (fileData : List ℚ) : Option (Except String ImportResult) :=
  if dialogResult = "" then none else some (importScanFile fileData requested)

/-!
## General lemmas about the index-map transforms
-/

theorem getD_range_map {α : Type} (f : ℕ → α) (n j : ℕ) (d : α) (h : j < n) :
    ((List.range n).map f).getD j d = f j := by
  rw [List.getD_eq_getElem?_getD, List.getElem?_map, List.getElem?_range h]
  rfl

theorem applyIdxMapN_length {α : Type} (n : ℕ) (p : ℕ → ℕ) (d : α) (xs : List α) :
    (applyIdxMapN n p d xs).length = n := by
  simp [applyIdxMapN]

theorem applyIdxMapN_twice {α : Type} (n : ℕ) (p : ℕ → ℕ) (d : α) (xs : List α)
    (hlen : xs.length = n) (hmem : ∀ k, k < n → p k < n)
    (hinv : ∀ k, k < n → p (p k) = k) :
    applyIdxMapN n p d (applyIdxMapN n p d xs) = xs := by
  apply List.ext_getElem
  · simp [applyIdxMapN, hlen]
  · intro i h1 h2
    have hi : i < n := by simpa [applyIdxMapN] using h1
    simp only [applyIdxMapN, List.getElem_map, List.getElem_range]
    rw [getD_range_map _ n _ d (hmem i hi), hinv i hi,
      List.getD_eq_getElem?_getD, List.getElem?_eq_getElem h2]
    rfl

theorem passIdxMap_decompose (si a t s r0 : ℕ) (hs : s < si) (hr : r0 < a) :
    passIdxMap si a (a * (si * t + s) + r0)
      = a * (si * t + (if r0 % 2 = 1 then si - 1 - s else s)) + r0 := by
  have ha : 0 < a := lt_of_le_of_lt (Nat.zero_le r0) hr
  have hsi : 0 < si := lt_of_le_of_lt (Nat.zero_le s) hs
  have h1 : (a * (si * t + s) + r0) % a = r0 := by
    rw [Nat.mul_add_mod, Nat.mod_eq_of_lt hr]
  have h2 : (a * (si * t + s) + r0) / a = si * t + s := by
    rw [Nat.mul_add_div ha, Nat.div_eq_of_lt hr, Nat.add_zero]
  have h3 : (si * t + s) % si = s := by
    rw [Nat.mul_add_mod, Nat.mod_eq_of_lt hs]
  have h4 : (a * (si * t + s) + r0) / (a * si) = t := by
    rw [← Nat.div_div_eq_div_mul, h2, Nat.mul_add_div hsi, Nat.div_eq_of_lt hs,
      Nat.add_zero]
  simp only [passIdxMap, h1, h2, h3, h4]
  by_cases hodd : r0 % 2 = 1 <;> simp only [hodd, if_true, if_false] <;> ring

theorem passIdxMap_passIdxMap (si a k : ℕ) (hsi : 0 < si) (ha : 0 < a) :
    passIdxMap si a (passIdxMap si a k) = k := by
  have e1 : a * (k / a) + k % a = k := Nat.div_add_mod k a
  have e2 : si * (k / a / si) + (k / a) % si = k / a := Nat.div_add_mod (k / a) si
  have hk : k = a * (si * (k / a / si) + (k / a) % si) + k % a := by
    rw [e2, e1]
  have hs : (k / a) % si < si := Nat.mod_lt _ hsi
  have hr : k % a < a := Nat.mod_lt _ ha
  rw [hk, passIdxMap_decompose si a _ _ _ hs hr]
  have hs2 : (if k % a % 2 = 1 then si - 1 - (k / a) % si else (k / a) % si) < si := by
    split_ifs <;> omega
  rw [passIdxMap_decompose si a _ _ _ hs2 hr]
  have hback :
      (if k % a % 2 = 1 then
          si - 1 - (if k % a % 2 = 1 then si - 1 - (k / a) % si else (k / a) % si)
        else (if k % a % 2 = 1 then si - 1 - (k / a) % si else (k / a) % si))
        = (k / a) % si := by
    split_ifs <;> omega
  rw [hback]

theorem passIdxMap_lt (si a bigR k : ℕ) (hk : k < bigR * (si * a)) :
    passIdxMap si a k < bigR * (si * a) := by
  have hsa : 0 < si * a := by
    rcases Nat.eq_zero_or_pos (si * a) with h | h
    · rw [h, Nat.mul_zero] at hk; omega
    · exact h
  have hsi : 0 < si := by
    rcases Nat.eq_zero_or_pos si with h | h
    · rw [h, Nat.zero_mul] at hsa; omega
    · exact h
  have ha : 0 < a := by
    rcases Nat.eq_zero_or_pos a with h | h
    · rw [h, Nat.mul_zero] at hsa; omega
    · exact h
  have e1 : a * (k / a) + k % a = k := Nat.div_add_mod k a
  have e2 : si * (k / a / si) + (k / a) % si = k / a := Nat.div_add_mod (k / a) si
  have hkrep : k = a * (si * (k / a / si) + (k / a) % si) + k % a := by
    rw [e2, e1]
  have hs : (k / a) % si < si := Nat.mod_lt _ hsi
  have hr : k % a < a := Nat.mod_lt _ ha
  rw [hkrep] at hk ⊢
  rw [passIdxMap_decompose si a _ _ _ hs hr]
  have ht : k / a / si < bigR := by
    by_contra hge
    push_neg at hge
    have hle : bigR * (si * a) ≤ a * (si * (k / a / si)) := by
      calc bigR * (si * a) = a * (si * bigR) := by ring
        _ ≤ a * (si * (k / a / si)) := Nat.mul_le_mul_left a (Nat.mul_le_mul_left si hge)
    have hmono : a * (si * (k / a / si))
        ≤ a * (si * (k / a / si) + (k / a) % si) :=
      Nat.mul_le_mul_left a (by omega)
    omega
  have hbound : ∀ s2 : ℕ, s2 < si →
      a * (si * (k / a / si) + s2) + k % a < bigR * (si * a) := by
    intro s2 hs2
    have h5 : a * (si * (k / a / si) + s2) + k % a < a * (si * (k / a / si) + s2 + 1) := by
      have hstep : a * (si * (k / a / si) + s2 + 1)
          = a * (si * (k / a / si) + s2) + a := by ring
      omega
    have h6 : a * (si * (k / a / si) + s2 + 1) ≤ a * (si * (k / a / si + 1)) := by
      apply Nat.mul_le_mul_left
      have h7 : s2 + 1 ≤ si := hs2
      calc si * (k / a / si) + s2 + 1 ≤ si * (k / a / si) + si := by omega
        _ = si * (k / a / si + 1) := by ring
    have h7 : a * (si * (k / a / si + 1)) ≤ a * (si * bigR) := by
      apply Nat.mul_le_mul_left
      exact Nat.mul_le_mul_left si ht
    calc a * (si * (k / a / si) + s2) + k % a < a * (si * (k / a / si) + s2 + 1) := h5
      _ ≤ a * (si * (k / a / si + 1)) := h6
      _ ≤ a * (si * bigR) := h7
      _ = bigR * (si * a) := by ring
  split_ifs with hodd
  · exact hbound _ (by omega)
  · exact hbound _ hs

theorem listProd_singleton (n : ℕ) : listProd [n] = n := by
  simp [listProd]

/-!
## Claim theorems
-/

/-- C3 (amended): the raster/boustrophedon flip transform is an involution
for every array with exactly 2 spatial axes: for any leading block size
`r` (the fused frequency/channel axes) and axis sizes `s0`, `s1`, applying
the flip twice yields the original array.  (For three or more spatial
axes the composed per-axis passes need not be an involution; see the
counterexample.) -/
theorem c3_two_axis_involution (r s0 s1 : ℕ) (xs : List CVal)
    (hlen : xs.length = r * (s0 * s1)) :
    rasterFlip [s0, s1] (rasterFlip [s0, s1] xs) = xs := by
  have hmem : ∀ k, k < xs.length → passIdxMap s0 s1 k < xs.length := by
    intro k hk
    rw [hlen] at hk ⊢
    exact passIdxMap_lt s0 s1 r k hk
  have hinv : ∀ k, k < xs.length → passIdxMap s0 s1 (passIdxMap s0 s1 k) = k := by
    intro k hk
    rw [hlen] at hk
    have hs0 : 0 < s0 := by
      rcases Nat.eq_zero_or_pos s0 with h | h
      · subst h; simp at hk
      · exact h
    have hs1 : 0 < s1 := by
      rcases Nat.eq_zero_or_pos s1 with h | h
      · subst h; simp at hk
      · exact h
    exact passIdxMap_passIdxMap s0 s1 k hs0 hs1
  unfold rasterFlip
  have hr : List.range (([s0, s1] : List ℕ).length - 1) = [0] := rfl
  rw [hr]
  simp only [List.foldl_cons, List.foldl_nil]
  unfold rasterFlipPass
  have hg : List.getD ([s0, s1] : List ℕ) 0 1 = s0 := rfl
  have hd : List.drop (0 + 1) ([s0, s1] : List ℕ) = [s1] := rfl
  rw [hg, hd, listProd_singleton, applyIdxMapN_length]
  exact applyIdxMapN_twice xs.length _ _ xs rfl hmem hinv

/-- Concrete 2-axis array on which the C3 witness instantiates the
involution theorem. -/
def c3WitnessList : List CVal :=
  [(0, 0), (1, 0), (2, 0), (3, 0), (4, 0), (5, 0)]

theorem c3_two_axis_involution_witness :
    rasterFlip [2, 3] (rasterFlip [2, 3] c3WitnessList) = c3WitnessList :=
  c3_two_axis_involution 1 2 3 c3WitnessList (by decide)

/-- Concrete 3-axis array (spatial shape 2 × 2 × 3, distinct values) on
which the composed raster-flip passes fail to be an involution. -/
def c3CounterList : List CVal :=
  (List.range 12).map (fun k => ((k : ℚ), 0))

/-- C3 counterexample: the claim as stated (double flip restores every
array with at least 2 spatial axes) is false at spatial shape
`[2, 2, 3]`. -/
theorem c3_counterexample :
    rasterFlip [2, 2, 3] (rasterFlip [2, 2, 3] c3CounterList) ≠ c3CounterList := by
  decide

/-- C2: the decode-side complex unpacking does NOT invert the encode-side
packing.  The encoder packs the two-point complex array
`[1+2i, 3+4i]` (one frequency, one channel) as `[1, 3, 2, 4]`
(all real parts then all imaginary parts); the decoder unpacks that block
to `[1+3i, 2+4i]`, not the original array.  This evaluates the code at
the failing input for the code-bug report. -/
theorem c2_unpack_pack_mismatch :
    unpackFSeq 1 2 (packComplexQ [((1 : ℚ), (2 : ℚ)), ((3 : ℚ), (4 : ℚ))])
        = [((1 : ℚ), (3 : ℚ)), ((2 : ℚ), (4 : ℚ))] ∧
      [((1 : ℚ), (3 : ℚ)), ((2 : ℚ), (4 : ℚ))]
        ≠ [((1 : ℚ), (2 : ℚ)), ((3 : ℚ), (4 : ℚ))] := by
  decide

/-- C4 (amended): `exportScan.export_scan` always writes the
absolute-coordinates block identical to the relative-coordinates block;
`exportScanSD.export_scan` instead writes the absolute block with the two
per-axis vectors swapped, so its two blocks coincide only when the two
coordinate vectors are equal. -/
theorem c4_coord_blocks :
    (∀ x : ExportInput, exportScanRelBlock x = exportScanAbsBlock x) ∧
      (∀ c0 c1 : List ℚ, sdCoordBlocks [c0, c1] = (c0 ++ c1, c1 ++ c0)) := by
  constructor
  · intro x; rfl
  · intro c0 c1; simp [sdCoordBlocks]

/-- C4 counterexample: at coordinate vectors `[1]` and `[2]`, the SD
encoder writes an absolute block different from the relative block, so
the claim that the two blocks are identical on every encode is false. -/
theorem c4_counterexample :
    (sdCoordBlocks [[(1 : ℚ)], [(2 : ℚ)]]).2 ≠ (sdCoordBlocks [[(1 : ℚ)], [(2 : ℚ)]]).1 := by
  decide

/-- C5 (amended): `exportScan.export_scan` writes `dim_order` as the
sequential identity permutation `0, 1, …, n-1`; `exportScanSD.export_scan`
always writes the hard-coded order `[1, 0]` instead. -/
theorem c5_dim_order :
    (∀ n i : ℕ, i < n →
        (exportScanDimOrderBlock n).length = n ∧
          (exportScanDimOrderBlock n).getD i 0 = (i : ℚ)) ∧
      sdDimOrderBlock = [1, 0] := by
  constructor
  · intro n i hi
    refine ⟨?_, ?_⟩
    · unfold exportScanDimOrderBlock
      rw [List.length_map, List.length_range]
    · unfold exportScanDimOrderBlock
      exact getD_range_map (fun j => (j : ℚ)) n i 0 hi
  · rfl

theorem c5_dim_order_witness :
    (exportScanDimOrderBlock 3).length = 3 ∧
      (exportScanDimOrderBlock 3).getD 2 0 = ((2 : ℕ) : ℚ) :=
  c5_dim_order.1 3 2 (by decide)

/-- C5 counterexample: the `dim_order` block of the SD encoder (which
always stores two axes) differs from the identity permutation on two
axes, so the claim that every encode writes the identity is false. -/
theorem c5_counterexample : sdDimOrderBlock ≠ exportScanDimOrderBlock 2 := by
  decide

/-- C9: the second encode path rejects every `coords` argument that does
not hold exactly 2 coordinate arrays, whatever the other arguments are,
with the dedicated error, before anything is written. -/
theorem c9_sd_two_coords_only (y : SDInput) (h : y.coords.length ≠ 2) :
    sdModel y = .error "coords must be a list of two sets" := by
  unfold sdModel sdCheck
  rw [if_pos h]

/-- Concrete input with an empty coords list for the C9 witness. -/
def c9BadInput : SDInput :=
  { coords := [], dataShape := [], dataFlat := [], dataIsComplex := false,
    freqs := [], dimSize := [] }

theorem c9_sd_two_coords_only_witness :
    sdModel c9BadInput = .error "coords must be a list of two sets" :=
  c9_sd_two_coords_only c9BadInput (by decide)

/-- C10: when the file-selection dialog yields an empty filename (user
cancel), `import_scan` returns `None` for every requested dimensionality
and every file content — no file is opened, no bytes are read and no
exception is raised. -/
theorem c10_cancel_returns_none (requested : Option ℕ) (fileData : List ℚ) :
    importScanTop "" requested fileData = none := rfl

/-- The concrete uniform scenario of the specification: a 2 × 3 grid with
`x = [0, 1]`, `y = [10, 20, 30]`, two frequencies, one channel, real data
of shape `(2, 3, 2, 1)` holding the sequential values 0‥11. -/
def c1Input : ExportInput :=
  { axisCoordinates := [[0, 1], [10, 20, 30]]
    fVector := [100, 200]
    dataShape := [2, 3, 2, 1]
    dataFlat := (List.range 12).map (fun k => ((k : ℚ), 0))
    dataIsComplex := false
    headerIn := { channelNames := [[65]] }
    isUniform := true }

/-- The file produced by encoding `c1Input`. -/
def c1Wire : List ℚ := (exportScanModel c1Input).toOption.getD []

/-- C1: round-trip identity FAILS.  Decoding the file produced by encoding
the concrete valid uniform input returns the sample array with shape
`[3, 2, 2]` — transposed, channel axis dropped — instead of the
original `[2, 3, 2, 1]` array.  This evaluates the code at the failing
input for the code-bug report. -/
theorem c1_roundtrip_fails :
    (importScanFile c1Wire (some 2)).toOption.map ImportResult.dataShape
        = some [3, 2, 2] ∧
      c1Input.dataShape = [2, 3, 2, 1] ∧ ([3, 2, 2] : List ℕ) ≠ [2, 3, 2, 1] := by
  decide

/-- C6: truncated-file padding.  General part: whenever the measurement
block offers `k` fewer values than the declared count `n`, the data-block
read returns (without raising) a block of exactly `n` values whose last
`k` values are zero, and sets the non-fatal short-data warning.  Concrete
part: decoding the uniform scenario file with its last 2 data values cut
off succeeds and reports the warning. -/
theorem c6_truncated_padding :
    (∀ (n k : ℕ) (s : List ℚ), s.length + k = n → 0 < k →
        (readMeasurementBlock n s).1 = s ++ List.replicate k 0 ∧
          (readMeasurementBlock n s).1.length = n ∧
          (readMeasurementBlock n s).1.drop (n - k) = List.replicate k 0 ∧
          (readMeasurementBlock n s).2.1 = true) ∧
      (importScanFile (c1Wire.take 38) (some 2)).toOption.map ImportResult.warnedShortData
        = some true := by
  constructor
  · intro n k s hn hk
    have hlt : s.length < n := by omega
    have htake : s.take n = s := List.take_of_length_le (le_of_lt hlt)
    have hblock : (readMeasurementBlock n s).1 = s ++ List.replicate (n - s.length) 0 ∧
        (readMeasurementBlock n s).2.1 = true := by
      unfold readMeasurementBlock takeN
      rw [htake, if_pos hlt]
      exact ⟨rfl, rfl⟩
    have hnk : n - s.length = k := by omega
    rw [hblock.1, hnk]
    refine ⟨rfl, ?_, ?_, hblock.2⟩
    · rw [List.length_append, List.length_replicate]; omega
    · have hdk : n - k = s.length := by omega
      rw [hdk, List.drop_left]
  · decide

theorem c6_truncated_padding_witness :
    (readMeasurementBlock 4 [(5 : ℚ), 6]).1 = [(5 : ℚ), 6] ++ List.replicate 2 0 ∧
      (readMeasurementBlock 4 [(5 : ℚ), 6]).1.length = 4 ∧
      (readMeasurementBlock 4 [(5 : ℚ), 6]).1.drop (4 - 2) = List.replicate 2 0 ∧
      (readMeasurementBlock 4 [(5 : ℚ), 6]).2.1 = true :=
  c6_truncated_padding.1 4 2 [5, 6] (by decide) (by decide)

/-- C7: dimensionality reconciliation.  For a uniform file storing 3 axes
(sizes `s0, s1, s2` with `s2 ≥ 1`, any stored axis order) and a caller
requesting 2 output axes, the reconciliation step of the decoder succeeds
exactly when the third stored axis has size 1; a size greater than 1 is a
fatal error. -/
theorem c7_dim_reconcile (s0 s1 s2 : ℕ) (ord : List ℕ) (h : 1 ≤ s2) :
    (∃ v, reconcileDims 3 ord [s0, s1, s2] (some 2) = .ok v) ↔ s2 = 1 := by
  have hrange : List.range ([s0, s1, s2] : List ℕ).length = [0, 1, 2] := rfl
  have hlsd : lastSignificantDim [s0, s1, s2]
      = if s2 > 1 then 3 else if s1 > 1 then 2 else if s0 > 1 then 1 else 0 := by
    unfold lastSignificantDim
    rw [hrange]
    simp only [List.foldl_cons, List.foldl_nil, List.getD_cons_zero, List.getD_cons_succ]
  unfold reconcileDims
  rw [hlsd]
  rcases Nat.lt_or_ge 1 s2 with h2 | h2
  · rw [if_pos h2]
    have hcond : (2 : ℕ) < 3 := by omega
    rw [if_pos hcond]
    constructor
    · rintro ⟨v, hv⟩; cases hv
    · intro h1; omega
  · have hs2 : s2 = 1 := by omega
    subst hs2
    have hno : ¬((1 : ℕ) > 1) := by omega
    rw [if_neg hno]
    have hall : (([s0, s1, 1] : List ℕ).drop 2).all (fun v => v = 1) = true := rfl
    constructor
    · intro _; rfl
    · intro _
      split_ifs <;> exact ⟨_, rfl⟩

/-- Instantiation of the C7 reconciliation theorem at sizes 2 × 3 × 1. -/
theorem c7_dim_reconcile_witness :
    (∃ v, reconcileDims 3 [1, 2, 3] [2, 3, 1] (some 2) = .ok v) ↔ (1 = 1) :=
  c7_dim_reconcile 2 3 1 [1, 2, 3] (le_refl 1)

theorem exportScanCheck_ok_iff (x : ExportInput) :
    exportScanCheck x = .ok () ↔ exportScanConsistent x := by
  unfold exportScanCheck exportScanConsistent
  cases hu : x.isUniform
  · simp only [hu, Bool.false_eq_true, if_false]
    split_ifs with h1 h2 h3 h4 h5
    · refine iff_of_false (by simp) (fun hc => ?_)
      exact (hc.1 h1.1).1 h1.2
    · refine iff_of_false (by simp) (fun hc => ?_)
      obtain ⟨l, hl, hne⟩ := h2.2
      exact hne ((hc.1 h2.1).2 l hl)
    · exact iff_of_false (by simp) (fun hc => (hc.2.1 h3.1) h3.2)
    · refine iff_of_false (by simp) (fun hc => ?_)
      have hlen := hc.2.2.1
      omega
    · exact iff_of_false (by simp) (fun hc => h5 hc.2.2.2)
    · refine iff_of_true rfl ⟨?_, ?_, by omega, not_ne_iff.mp h5⟩
      · intro hnd
        refine ⟨fun hsh => h1 ⟨hnd, hsh⟩, fun l hl => ?_⟩
        by_contra hne
        exact h2 ⟨hnd, l, hl, hne⟩
      · intro hnd hlen
        exact h3 ⟨hnd, hlen⟩
  · simp only [hu, if_true]
    split_ifs with h1 h2 h3
    · refine iff_of_false (by simp) (fun hc => ?_)
      rcases hc.1 with h | h
      · omega
      · exact h1.2 h
    · refine iff_of_false (by simp) (fun hc => ?_)
      have hlen := hc.2.1
      omega
    · exact iff_of_false (by simp) (fun hc => h3 hc.2.2)
    · refine iff_of_true rfl ⟨?_, by omega, not_ne_iff.mp h3⟩
      by_cases hnd : numDims x = 0
      · exact Or.inl hnd
      · right
        by_contra hne
        exact h1 ⟨Nat.pos_of_ne_zero hnd, hne⟩

theorem sdCheck_ok_iff (y : SDInput) :
    sdCheck y = .ok () ↔ sdConsistent y := by
  unfold sdCheck sdConsistent
  split_ifs with h1 h2 h3 h4
  · exact iff_of_false (by simp) (fun hc => h1 hc.1)
  · exact iff_of_false (by simp) (fun hc => absurd hc.2.1 (by omega))
  · exact iff_of_false (by simp) (fun hc => h3 hc.2.2.1)
  · exact iff_of_false (by simp) (fun hc => h4 hc.2.2.2)
  · exact iff_of_true rfl
      ⟨not_ne_iff.mp h1, le_of_not_lt h2, not_ne_iff.mp h3, not_ne_iff.mp h4⟩

/-- C8: for both encode paths, inputs whose arrays or coordinates are
inconsistent with the declared dimensions produce an error and no output
file, and consistent inputs produce a file: the shape validation decides
the outcome, and in the source every validation precedes the opening of
the output file, so no byte is ever written on such errors. -/
theorem c8_validate_before_write (x : ExportInput) (y : SDInput) :
    ((∃ w, exportScanModel x = .ok w) ↔ exportScanConsistent x) ∧
      ((∃ w, sdModel y = .ok w) ↔ sdConsistent y) := by
  constructor
  · rw [← exportScanCheck_ok_iff]
    unfold exportScanModel
    cases hc : exportScanCheck x with
    | error e => simp [hc]
    | ok u => cases u; simp [hc]
  · rw [← sdCheck_ok_iff]
    unfold sdModel
    cases hc : sdCheck y with
    | error e => simp [hc]
    | ok u => cases u; simp [hc]

end ScanCodec
